import Mathlib

/-!
# Verification of the gpx-bike-simulator core (src/app.js)

Shallow embedding of the computational core of `src/app.js` over the real
numbers: physical constants, the power model `calculatePowerNeeded`, the
binary-search speed solver `calculateSpeed`, haversine distance
`calculateDistance`, segment construction `calculateSegmentData`, the route
simulation loop of `runSimulation`, and the range aggregation of
`updateSummaryCards`.

JavaScript floating-point numbers are modelled as real numbers; real division
is Lean's total division (x / 0 = 0). Loops are modelled by structural
recursion; the binary-search `while` loop carries its iteration counter
exactly as the source does, with enough fuel that the fuel bound is
unreachable (proved below).
-/

namespace BikeSim

/-- gravity (m/s^2), `const g = 9.81` in app.js line 2. -/
noncomputable def g : ℝ := 9.81

/-- air density (kg/m^3), `const rho = 1.225` in app.js line 3. -/
noncomputable def rho : ℝ := 1.225

/-- rolling resistance coefficient, `const Crr = 0.004` in app.js line 4. -/
noncomputable def Crr : ℝ := 0.004

/-- `calculatePowerNeeded(speed_ms, grade, mass, CdA)`, app.js lines 251-262:
power needed to hold a given speed on a given grade. -/
noncomputable def calculatePowerNeeded (speed_ms grade mass CdA : ℝ) : ℝ :=
  let theta := Real.arctan grade
  let F_gravity := mass * g * Real.sin theta
  let F_rolling := mass * g * Real.cos theta * Crr
  let F_air := 0.5 * rho * CdA * speed_ms * speed_ms
  let totalForce := F_gravity + F_rolling + F_air
  totalForce * speed_ms

/-- Closed form of the power model: with `sin (arctan x) = x / √(1 + x²)` and
`cos (arctan x) = 1 / √(1 + x²)`, the power is a linear-plus-cubic polynomial
in the speed. -/
theorem calculatePowerNeeded_eq (v grade mass CdA : ℝ) :
    calculatePowerNeeded v grade mass CdA =
      mass * g * ((grade + Crr) / Real.sqrt (1 + grade ^ 2)) * v
        + 0.5 * rho * CdA * v ^ 3 := by
  unfold calculatePowerNeeded
  simp only [Real.sin_arctan, Real.cos_arctan]
  ring

/-- At zero speed the power model yields zero. -/
theorem calculatePowerNeeded_zero (grade mass CdA : ℝ) :
    calculatePowerNeeded 0 grade mass CdA = 0 := by
  rw [calculatePowerNeeded_eq]; ring

/-- C1: the claim quantifies over grades of any sign, but for a steep descent
(grade −1, i.e. 45° downhill) the gravity term is negative and dominates at
low speed: `powerNeeded(1, −1, 80, 0.3) < 0 = powerNeeded(0, −1, 80, 0.3)`,
so `powerNeeded` is not strictly increasing in speed over all v ≥ 0 for every
grade. -/
theorem C1_counterexample :
    ¬ (∀ (grade mass CdA v1 v2 : ℝ), 0 < mass → 0 < CdA → 0 ≤ v1 → v1 < v2 →
        calculatePowerNeeded v1 grade mass CdA <
          calculatePowerNeeded v2 grade mass CdA) := by
  intro h
  have h01 := h (-1) 80 0.3 0 1 (by norm_num) (by norm_num) le_rfl (by norm_num)
  have hzero : calculatePowerNeeded 0 (-1) 80 0.3 = 0 :=
    calculatePowerNeeded_zero _ _ _
  have hs : (0:ℝ) < Real.sqrt 2 := Real.sqrt_pos.2 (by norm_num)
  have hs2 : Real.sqrt 2 < 1.5 := by
    rw [Real.sqrt_lt' (by norm_num)]; norm_num
  have hone : calculatePowerNeeded 1 (-1) 80 0.3 < 0 := by
    rw [calculatePowerNeeded_eq]
    have he : (1:ℝ) + (-1:ℝ) ^ 2 = 2 := by norm_num
    rw [he]
    have hA : ((-1:ℝ) + Crr) / Real.sqrt 2 ≤ -0.5 := by
      rw [div_le_iff₀ hs]
      unfold Crr
      nlinarith [hs2, hs]
    unfold g rho Crr at *
    nlinarith [hA]
  rw [hzero] at h01
  linarith

/-- C1 (amended): for grades at least −Crr (so the combined gravity and
rolling coefficient is non-negative), `calculatePowerNeeded` is strictly
increasing in the speed over v ≥ 0, for every mass > 0 and dragArea > 0. -/
theorem C1_amended (grade mass CdA v1 v2 : ℝ)
    (hgrade : -Crr ≤ grade) (hmass : 0 < mass) (hCdA : 0 < CdA)
    (hv1 : 0 ≤ v1) (hv12 : v1 < v2) :
    calculatePowerNeeded v1 grade mass CdA <
      calculatePowerNeeded v2 grade mass CdA := by
  rw [calculatePowerNeeded_eq, calculatePowerNeeded_eq]
  have hs : (0:ℝ) < Real.sqrt (1 + grade ^ 2) := Real.sqrt_pos.2 (by positivity)
  have hg : (0:ℝ) < g := by unfold g; norm_num
  have hA : 0 ≤ mass * g * ((grade + Crr) / Real.sqrt (1 + grade ^ 2)) := by
    have : 0 ≤ grade + Crr := by linarith
    positivity
  have hB : (0:ℝ) < 0.5 * rho * CdA := by unfold rho; positivity
  have hcube : v1 ^ 3 < v2 ^ 3 := pow_lt_pow_left₀ hv12 hv1 (by norm_num)
  have h1 : mass * g * ((grade + Crr) / Real.sqrt (1 + grade ^ 2)) * v1 ≤
      mass * g * ((grade + Crr) / Real.sqrt (1 + grade ^ 2)) * v2 :=
    mul_le_mul_of_nonneg_left hv12.le hA
  have h2 : 0.5 * rho * CdA * v1 ^ 3 < 0.5 * rho * CdA * v2 ^ 3 :=
    mul_lt_mul_of_pos_left hcube hB
  linarith

/-- Witness for `C1_amended` at grade 0, mass 80, dragArea 0.3, speeds 0 < 1. -/
theorem C1_amended_witness :
    -Crr ≤ (0:ℝ) ∧ (0:ℝ) < 80 ∧ (0:ℝ) < 0.3 ∧ (0:ℝ) ≤ 0 ∧ (0:ℝ) < 1 ∧
      calculatePowerNeeded 0 0 80 0.3 < calculatePowerNeeded 1 0 80 0.3 :=
  ⟨by unfold Crr; norm_num, by norm_num, by norm_num, le_rfl, by norm_num,
    C1_amended 0 80 0.3 0 1 (by unfold Crr; norm_num) (by norm_num)
      (by norm_num) le_rfl (by norm_num)⟩

/-- The `while` loop of `calculateSpeed`, app.js lines 280-290: bisect the
bracket `[vMin, vMax]` while its width exceeds the tolerance and fewer than
`maxIterations` iterations have run, counting iterations exactly as the
source does. The extra `fuel` argument makes the recursion structural; with
fuel 101 the fuel bound is unreachable (`searchLoop_exits`). -/
noncomputable def searchLoop (P : ℝ → ℝ) (Pmax tolerance : ℝ) (maxIterations : ℕ) :
    ℕ → ℝ → ℝ → ℕ → ℝ × ℝ × ℕ
  | 0, vMin, vMax, iterations => (vMin, vMax, iterations)
  | fuel + 1, vMin, vMax, iterations =>
    if vMax - vMin > tolerance ∧ iterations < maxIterations then
      let vMid := (vMin + vMax) / 2
      if P vMid < Pmax then
        searchLoop P Pmax tolerance maxIterations fuel vMid vMax (iterations + 1)
      else
        searchLoop P Pmax tolerance maxIterations fuel vMin vMid (iterations + 1)
    else
      (vMin, vMax, iterations)

/-- `calculateSpeed(grade, mass, CdA, Pmax, Vmax_ms)`, app.js lines 265-293:
return `Vmax_ms` when the power needed at `Vmax_ms` is within the budget,
otherwise binary-search `[0.1, Vmax_ms]` with tolerance 0.001 and iteration
cap 100 and return the midpoint of the final bracket. -/
noncomputable def calculateSpeed (grade mass CdA Pmax Vmax_ms : ℝ) : ℝ :=
  if calculatePowerNeeded Vmax_ms grade mass CdA ≤ Pmax then
    Vmax_ms
  else
    let r := searchLoop (fun v => calculatePowerNeeded v grade mass CdA)
      Pmax 0.001 100 101 0.1 Vmax_ms 0
    (r.1 + r.2.1) / 2

/-- The bisection loop keeps its bracket inside the initial bracket and
ordered. -/
theorem searchLoop_bracket (P : ℝ → ℝ) (Pmax tolerance : ℝ) (maxIterations : ℕ) :
    ∀ (fuel : ℕ) (vMin vMax : ℝ) (iterations : ℕ), vMin ≤ vMax →
      vMin ≤ (searchLoop P Pmax tolerance maxIterations fuel vMin vMax iterations).1 ∧
      (searchLoop P Pmax tolerance maxIterations fuel vMin vMax iterations).1 ≤
        (searchLoop P Pmax tolerance maxIterations fuel vMin vMax iterations).2.1 ∧
      (searchLoop P Pmax tolerance maxIterations fuel vMin vMax iterations).2.1 ≤ vMax := by
  intro fuel
  induction fuel with
  | zero => intro vMin vMax iterations h; exact ⟨le_rfl, h, le_rfl⟩
  | succ fuel ih =>
    intro vMin vMax iterations h
    rw [searchLoop]
    by_cases hg : vMax - vMin > tolerance ∧ iterations < maxIterations
    · rw [if_pos hg]
      by_cases hp : P ((vMin + vMax) / 2) < Pmax
      · simp only [if_pos hp]
        have hmid : (vMin + vMax) / 2 ≤ vMax := by linarith
        obtain ⟨h1, h2, h3⟩ := ih ((vMin + vMax) / 2) vMax (iterations + 1) hmid
        exact ⟨le_trans (by linarith) h1, h2, h3⟩
      · simp only [if_neg hp]
        have hmid : vMin ≤ (vMin + vMax) / 2 := by linarith
        obtain ⟨h1, h2, h3⟩ := ih vMin ((vMin + vMax) / 2) (iterations + 1) hmid
        exact ⟨h1, h2, le_trans h3 (by linarith)⟩
    · rw [if_neg hg]
      exact ⟨le_rfl, h, le_rfl⟩

/-- The bisection loop keeps both bracket ends strictly positive. -/
theorem searchLoop_pos (P : ℝ → ℝ) (Pmax tolerance : ℝ) (maxIterations : ℕ) :
    ∀ (fuel : ℕ) (vMin vMax : ℝ) (iterations : ℕ), 0 < vMin → 0 < vMax →
      0 < (searchLoop P Pmax tolerance maxIterations fuel vMin vMax iterations).1 ∧
      0 < (searchLoop P Pmax tolerance maxIterations fuel vMin vMax iterations).2.1 := by
  intro fuel
  induction fuel with
  | zero => intro vMin vMax iterations h1 h2; exact ⟨h1, h2⟩
  | succ fuel ih =>
    intro vMin vMax iterations h1 h2
    rw [searchLoop]
    by_cases hg : vMax - vMin > tolerance ∧ iterations < maxIterations
    · rw [if_pos hg]
      have hmid : 0 < (vMin + vMax) / 2 := by linarith
      by_cases hp : P ((vMin + vMax) / 2) < Pmax
      · simp only [if_pos hp]; exact ih _ _ _ hmid h2
      · simp only [if_neg hp]; exact ih _ _ _ h1 hmid
    · rw [if_neg hg]
      exact ⟨h1, h2⟩

/-- With more fuel than the remaining iteration budget, the loop exits
through its own guard: the final iteration count never exceeds
`maxIterations` and at the final bracket the guard is false. -/
theorem searchLoop_exits (P : ℝ → ℝ) (Pmax tolerance : ℝ) (maxIterations : ℕ) :
    ∀ (fuel : ℕ) (vMin vMax : ℝ) (iterations : ℕ), iterations ≤ maxIterations →
      maxIterations - iterations < fuel →
      (searchLoop P Pmax tolerance maxIterations fuel vMin vMax iterations).2.2 ≤
          maxIterations ∧
      ¬ ((searchLoop P Pmax tolerance maxIterations fuel vMin vMax iterations).2.1 -
            (searchLoop P Pmax tolerance maxIterations fuel vMin vMax iterations).1 >
            tolerance ∧
          (searchLoop P Pmax tolerance maxIterations fuel vMin vMax iterations).2.2 <
            maxIterations) := by
  intro fuel
  induction fuel with
  | zero => intro vMin vMax iterations _ hf; omega
  | succ fuel ih =>
    intro vMin vMax iterations hi hf
    rw [searchLoop]
    by_cases hg : vMax - vMin > tolerance ∧ iterations < maxIterations
    · rw [if_pos hg]
      have hi' : iterations + 1 ≤ maxIterations := hg.2
      have hf' : maxIterations - (iterations + 1) < fuel := by omega
      by_cases hp : P ((vMin + vMax) / 2) < Pmax
      · simp only [if_pos hp]; exact ih _ _ _ hi' hf'
      · simp only [if_neg hp]; exact ih _ _ _ hi' hf'
    · rw [if_neg hg]
      exact ⟨hi, hg⟩

/-- C2: the claim quantifies over every `maxSpeedMs > 0`, but for
`maxSpeedMs = 0.05` (with grade 0, mass 80, dragArea 0.3, maxPower 250) the
power needed at 0.05 m/s is far below 250 W, so `calculateSpeed` returns
0.05, which lies outside `[0.1, 0.05]`. -/
theorem C2_counterexample :
    ¬ (∀ (grade mass CdA Pmax Vmax_ms : ℝ), 0 < mass → 0 < CdA → 0 < Pmax →
        0 < Vmax_ms →
        0.1 ≤ calculateSpeed grade mass CdA Pmax Vmax_ms ∧
          calculateSpeed grade mass CdA Pmax Vmax_ms ≤ Vmax_ms) := by
  intro h
  have hval : calculateSpeed 0 80 0.3 250 0.05 = 0.05 := by
    unfold calculateSpeed
    rw [if_pos]
    rw [calculatePowerNeeded_eq]
    unfold g rho Crr
    rw [show (1:ℝ) + 0 ^ 2 = 1 by norm_num, Real.sqrt_one]
    norm_num
  have := (h 0 80 0.3 250 0.05 (by norm_num) (by norm_num) (by norm_num)
    (by norm_num)).1
  rw [hval] at this
  norm_num at this

/-- C2 (amended): for every grade, mass > 0, dragArea > 0, maxPower > 0 and
`maxSpeedMs ≥ 0.1`, the value returned by `calculateSpeed` lies in the closed
interval `[0.1, maxSpeedMs]`. -/
theorem C2_amended (grade mass CdA Pmax Vmax_ms : ℝ)
    (hmass : 0 < mass) (hCdA : 0 < CdA) (hPmax : 0 < Pmax)
    (hV : 0.1 ≤ Vmax_ms) :
    0.1 ≤ calculateSpeed grade mass CdA Pmax Vmax_ms ∧
      calculateSpeed grade mass CdA Pmax Vmax_ms ≤ Vmax_ms := by
  unfold calculateSpeed
  by_cases hb : calculatePowerNeeded Vmax_ms grade mass CdA ≤ Pmax
  · rw [if_pos hb]; exact ⟨hV, le_rfl⟩
  · rw [if_neg hb]
    obtain ⟨h1, h2, h3⟩ := searchLoop_bracket
      (fun v => calculatePowerNeeded v grade mass CdA) Pmax 0.001 100
      101 0.1 Vmax_ms 0 hV
    constructor
    · linarith
    · linarith

/-- Witness for `C2_amended` at grade 0, mass 80, dragArea 0.3,
maxPower 250, maxSpeedMs 10. -/
theorem C2_amended_witness :
    (0:ℝ) < 80 ∧ (0:ℝ) < 0.3 ∧ (0:ℝ) < 250 ∧ (0.1:ℝ) ≤ 10 ∧
      (0.1 ≤ calculateSpeed 0 80 0.3 250 10 ∧ calculateSpeed 0 80 0.3 250 10 ≤ 10) :=
  ⟨by norm_num, by norm_num, by norm_num, by norm_num,
    C2_amended 0 80 0.3 250 10 (by norm_num) (by norm_num) (by norm_num)
      (by norm_num)⟩

/-- C3: whenever the power needed at `maxSpeedMs` is within the power budget,
`calculateSpeed` returns exactly `maxSpeedMs`, for every grade, mass,
dragArea, maxPower and maxSpeedMs. -/
theorem C3_speed_limited (grade mass CdA Pmax Vmax_ms : ℝ)
    (h : calculatePowerNeeded Vmax_ms grade mass CdA ≤ Pmax) :
    calculateSpeed grade mass CdA Pmax Vmax_ms = Vmax_ms := by
  unfold calculateSpeed
  rw [if_pos h]

/-- Witness for `C3_speed_limited`: at grade 0, mass 80, dragArea 0.3 the
power needed at 10 m/s is 215.142 W ≤ 250 W, and `calculateSpeed` returns
10. -/
theorem C3_speed_limited_witness :
    calculatePowerNeeded 10 0 80 0.3 ≤ 250 ∧ calculateSpeed 0 80 0.3 250 10 = 10 := by
  have h : calculatePowerNeeded 10 0 80 0.3 ≤ 250 := by
    rw [calculatePowerNeeded_eq]
    unfold g rho Crr
    rw [show (1:ℝ) + 0 ^ 2 = 1 by norm_num, Real.sqrt_one]
    norm_num
  exact ⟨h, C3_speed_limited 0 80 0.3 250 10 h⟩

/-- C9: in the power-limited branch the binary-search loop of
`calculateSpeed` runs at most 100 iterations, exits through its own guard
(bracket width ≤ 0.001 or iteration cap reached) rather than by fuel
exhaustion, and the function returns the midpoint of the final bracket. -/
theorem C9_loop_terminates (grade mass CdA Pmax Vmax_ms : ℝ)
    (h : ¬ calculatePowerNeeded Vmax_ms grade mass CdA ≤ Pmax) :
    (searchLoop (fun v => calculatePowerNeeded v grade mass CdA)
        Pmax 0.001 100 101 0.1 Vmax_ms 0).2.2 ≤ 100 ∧
    ¬ ((searchLoop (fun v => calculatePowerNeeded v grade mass CdA)
          Pmax 0.001 100 101 0.1 Vmax_ms 0).2.1 -
        (searchLoop (fun v => calculatePowerNeeded v grade mass CdA)
          Pmax 0.001 100 101 0.1 Vmax_ms 0).1 > 0.001 ∧
        (searchLoop (fun v => calculatePowerNeeded v grade mass CdA)
          Pmax 0.001 100 101 0.1 Vmax_ms 0).2.2 < 100) ∧
    calculateSpeed grade mass CdA Pmax Vmax_ms =
      ((searchLoop (fun v => calculatePowerNeeded v grade mass CdA)
          Pmax 0.001 100 101 0.1 Vmax_ms 0).1 +
        (searchLoop (fun v => calculatePowerNeeded v grade mass CdA)
          Pmax 0.001 100 101 0.1 Vmax_ms 0).2.1) / 2 := by
  obtain ⟨h1, h2⟩ := searchLoop_exits
    (fun v => calculatePowerNeeded v grade mass CdA) Pmax 0.001 100
    101 0.1 Vmax_ms 0 (by norm_num) (by norm_num)
  refine ⟨h1, h2, ?_⟩
  unfold calculateSpeed
  rw [if_neg h]

/-- Witness for `C9_loop_terminates`: at grade 0, mass 80, dragArea 0.3 the
power needed at 20 m/s is 1532.784 W > 250 W, so the solver is in the
power-limited branch. -/
theorem C9_loop_terminates_witness :
    ¬ calculatePowerNeeded 20 0 80 0.3 ≤ 250 ∧
      ((searchLoop (fun v => calculatePowerNeeded v 0 80 0.3)
          250 0.001 100 101 0.1 20 0).2.2 ≤ 100 ∧
        ¬ ((searchLoop (fun v => calculatePowerNeeded v 0 80 0.3)
              250 0.001 100 101 0.1 20 0).2.1 -
            (searchLoop (fun v => calculatePowerNeeded v 0 80 0.3)
              250 0.001 100 101 0.1 20 0).1 > 0.001 ∧
            (searchLoop (fun v => calculatePowerNeeded v 0 80 0.3)
              250 0.001 100 101 0.1 20 0).2.2 < 100) ∧
        calculateSpeed 0 80 0.3 250 20 =
          ((searchLoop (fun v => calculatePowerNeeded v 0 80 0.3)
              250 0.001 100 101 0.1 20 0).1 +
            (searchLoop (fun v => calculatePowerNeeded v 0 80 0.3)
              250 0.001 100 101 0.1 20 0).2.1) / 2) := by
  have h : ¬ calculatePowerNeeded 20 0 80 0.3 ≤ 250 := by
    rw [calculatePowerNeeded_eq]
    unfold g rho Crr
    rw [show (1:ℝ) + 0 ^ 2 = 1 by norm_num, Real.sqrt_one]
    norm_num
  exact ⟨h, C9_loop_terminates 0 80 0.3 250 20 h⟩

/-- `calculateSpeed` is strictly positive whenever `Vmax_ms` is: either it
returns `Vmax_ms` itself, or the midpoint of a bracket whose ends stay
positive. -/
theorem calculateSpeed_pos (grade mass CdA Pmax Vmax_ms : ℝ) (hV : 0 < Vmax_ms) :
    0 < calculateSpeed grade mass CdA Pmax Vmax_ms := by
  unfold calculateSpeed
  by_cases hb : calculatePowerNeeded Vmax_ms grade mass CdA ≤ Pmax
  · rw [if_pos hb]; exact hV
  · rw [if_neg hb]
    obtain ⟨h1, h2⟩ := searchLoop_pos
      (fun v => calculatePowerNeeded v grade mass CdA) Pmax 0.001 100
      101 0.1 Vmax_ms 0 (by norm_num) hV
    simp only
    linarith

/-- C10: for every grade, mass, dragArea and maxPower, and every
`maxSpeedMs > 0`, `calculateSpeed` returns a strictly positive speed (either
`maxSpeedMs` itself or the midpoint of a bracket whose ends stay positive),
so dividing a segment distance by it never divides by zero. -/
theorem C10_speed_pos (grade mass CdA Pmax Vmax_ms : ℝ) (hV : 0 < Vmax_ms) :
    0 < calculateSpeed grade mass CdA Pmax Vmax_ms :=
  calculateSpeed_pos grade mass CdA Pmax Vmax_ms hV

/-- Witness for `C10_speed_pos` at grade −1, mass 80, dragArea 0.3,
maxPower 250, maxSpeedMs 5. -/
theorem C10_speed_pos_witness :
    (0:ℝ) < 5 ∧ 0 < calculateSpeed (-1) 80 0.3 250 5 :=
  ⟨by norm_num, C10_speed_pos (-1) 80 0.3 250 5 (by norm_num)⟩

/-- JavaScript `Math.atan2(y, x)`: the angle of the point `(x, y)`, by the
usual quadrant case split (signed zeros of IEEE are not modelled; the source
only ever calls it with non-negative arguments). -/
noncomputable def atan2 (y x : ℝ) : ℝ :=
  if 0 < x then Real.arctan (y / x)
  else if x < 0 then
    if 0 ≤ y then Real.arctan (y / x) + Real.pi else Real.arctan (y / x) - Real.pi
  else
    if 0 < y then Real.pi / 2 else if y < 0 then -(Real.pi / 2) else 0

/-- `calculateDistance(lat1, lon1, lat2, lon2)`, app.js lines 204-217:
haversine great-circle distance in meters between two points given in
degrees, with Earth radius 6,371,000 m. -/
noncomputable def calculateDistance (lat1 lon1 lat2 lon2 : ℝ) : ℝ :=
  let R : ℝ := 6371000
  let phi1 := lat1 * Real.pi / 180
  let phi2 := lat2 * Real.pi / 180
  let dPhi := (lat2 - lat1) * Real.pi / 180
  let dLam := (lon2 - lon1) * Real.pi / 180
  let a := Real.sin (dPhi / 2) * Real.sin (dPhi / 2) +
    Real.cos phi1 * Real.cos phi2 * Real.sin (dLam / 2) * Real.sin (dLam / 2)
  let c := 2 * atan2 (Real.sqrt a) (Real.sqrt (1 - a))
  R * c

/-- For two points with identical coordinates the haversine distance is 0. -/
theorem calculateDistance_self (lat lon : ℝ) :
    calculateDistance lat lon lat lon = 0 := by
  unfold calculateDistance atan2
  simp [Real.sqrt_one]

/-- A track point as parsed from the GPX file, app.js line 196:
`{ lat, lon, ele }`. -/
structure TrackPoint where
  lat : ℝ
  lon : ℝ
  ele : ℝ

instance : Inhabited TrackPoint := ⟨⟨0, 0, 0⟩⟩

/-- A segment between two consecutive track points, app.js lines 237-244. -/
structure Segment where
  distance : ℝ
  grade : ℝ
  elevation : ℝ
  cumulativeDistance : ℝ
  lat : ℝ
  lon : ℝ

instance : Inhabited Segment := ⟨⟨0, 0, 0, 0, 0, 0⟩⟩

/-- The loop body of `calculateSegmentData`, app.js lines 224-245: build one
segment per consecutive pair of points, accumulating the 3D distance into
`totalDistance`. -/
noncomputable def segmentsFrom (totalDistance : ℝ) (p1 : TrackPoint) :
    List TrackPoint → List Segment
  | [] => []
  | p2 :: rest =>
    let horizontalDist := calculateDistance p1.lat p1.lon p2.lat p2.lon
    let elevationChange := p2.ele - p1.ele
    let distance :=
      Real.sqrt (horizontalDist * horizontalDist + elevationChange * elevationChange)
    let grade := if horizontalDist > 0 then elevationChange / horizontalDist else 0
    let newTotal := totalDistance + distance
    { distance := distance, grade := grade, elevation := p2.ele,
      cumulativeDistance := newTotal, lat := p2.lat, lon := p2.lon } ::
      segmentsFrom newTotal p2 rest

/-- `calculateSegmentData(points)`, app.js lines 220-248: one segment per
consecutive pair of track points; fewer than two points give no segments. -/
noncomputable def calculateSegmentData : List TrackPoint → List Segment
  | [] => []
  | p :: rest => segmentsFrom 0 p rest

/-- The grade and distance of the `i`-th segment depend only on the `i`-th
consecutive pair of points, not on the accumulated distance. -/
theorem segmentsFrom_getD_pair (rest : List TrackPoint) :
    ∀ (p1 : TrackPoint) (t : ℝ) (i : ℕ), i < rest.length →
      ((segmentsFrom t p1 rest).getD i default).grade =
        (if calculateDistance ((p1 :: rest).getD i default).lat
              ((p1 :: rest).getD i default).lon
              (rest.getD i default).lat (rest.getD i default).lon > 0 then
          ((rest.getD i default).ele - ((p1 :: rest).getD i default).ele) /
            calculateDistance ((p1 :: rest).getD i default).lat
              ((p1 :: rest).getD i default).lon
              (rest.getD i default).lat (rest.getD i default).lon
        else 0) ∧
      ((segmentsFrom t p1 rest).getD i default).distance =
        Real.sqrt
          (calculateDistance ((p1 :: rest).getD i default).lat
              ((p1 :: rest).getD i default).lon
              (rest.getD i default).lat (rest.getD i default).lon *
            calculateDistance ((p1 :: rest).getD i default).lat
              ((p1 :: rest).getD i default).lon
              (rest.getD i default).lat (rest.getD i default).lon +
          ((rest.getD i default).ele - ((p1 :: rest).getD i default).ele) *
            ((rest.getD i default).ele - ((p1 :: rest).getD i default).ele)) := by
  induction rest with
  | nil => intro p1 t i hi; simp at hi
  | cons p2 rest ih =>
    intro p1 t i hi
    cases i with
    | zero => simp [segmentsFrom]
    | succ j =>
      have hj : j < rest.length := by simpa using hi
      simpa [segmentsFrom, List.getD_cons_succ] using ih p2 _ j hj

/-- C8: for every pair of consecutive track points with identical latitude
and longitude, the corresponding segment has grade 0 and 3D distance equal to
the absolute elevation difference. -/
theorem C8_degenerate_segment (ps : List TrackPoint) (i : ℕ)
    (hi : i + 1 < ps.length)
    (hlat : (ps.getD i default).lat = (ps.getD (i + 1) default).lat)
    (hlon : (ps.getD i default).lon = (ps.getD (i + 1) default).lon) :
    ((calculateSegmentData ps).getD i default).grade = 0 ∧
      ((calculateSegmentData ps).getD i default).distance =
        |(ps.getD (i + 1) default).ele - (ps.getD i default).ele| := by
  match ps, hi with
  | p :: rest, hi =>
    have hir : i < rest.length := by simpa using hi
    obtain ⟨hg, hd⟩ := segmentsFrom_getD_pair rest p 0 i hir
    have hpair : ∀ j : ℕ, (rest.getD j default) = ((p :: rest).getD (j + 1) default) := by
      intro j; simp [List.getD_cons_succ]
    have hzero : calculateDistance ((p :: rest).getD i default).lat
        ((p :: rest).getD i default).lon
        (rest.getD i default).lat (rest.getD i default).lon = 0 := by
      rw [hpair i] at *
      rw [← hlat, ← hlon]
      exact calculateDistance_self _ _
    constructor
    · rw [calculateSegmentData, hg, hzero]
      norm_num
    · rw [calculateSegmentData, hd, hzero, hpair i]
      rw [show (0:ℝ) * 0 = 0 by ring, zero_add]
      exact Real.sqrt_mul_self_eq_abs _

/-- Witness for `C8_degenerate_segment`: two stacked points at the same
coordinates, elevations 5 and 9. -/
theorem C8_degenerate_segment_witness :
    (0 + 1 < ([⟨1, 2, 5⟩, ⟨1, 2, 9⟩] : List TrackPoint).length) ∧
      ((calculateSegmentData [⟨1, 2, 5⟩, ⟨1, 2, 9⟩]).getD 0 default).grade = 0 ∧
      ((calculateSegmentData [⟨1, 2, 5⟩, ⟨1, 2, 9⟩]).getD 0 default).distance =
        |(([⟨1, 2, 5⟩, ⟨1, 2, 9⟩] : List TrackPoint).getD 1 default).ele -
          (([⟨1, 2, 5⟩, ⟨1, 2, 9⟩] : List TrackPoint).getD 0 default).ele| :=
  ⟨by norm_num,
    C8_degenerate_segment [⟨1, 2, 5⟩, ⟨1, 2, 9⟩] 0 (by norm_num) rfl rfl⟩

/-- One entry of the simulation output, app.js lines 321-329 and 360-370.
The synthetic first entry carries no coordinates, so `lat`/`lon` are
optional. -/
structure SimPoint where
  distance : ℝ
  elevation : ℝ
  speed : ℝ
  power : ℝ
  time : ℝ
  grade : ℝ
  elevationGain : ℝ
  lat : Option ℝ := none
  lon : Option ℝ := none

instance : Inhabited SimPoint := ⟨⟨0, 0, 0, 0, 0, 0, 0, none, none⟩⟩

/-- The per-segment loop of `runSimulation`, app.js lines 331-371: solve the
speed, accumulate time and positive elevation gain, pick the reported power
by the speed-limited / power-limited branch, and append one `SimPoint` per
segment. Returns the produced points together with the final accumulated
`totalTime`. -/
noncomputable def simLoop (mass CdA Pmax Vmax_ms : ℝ) :
    List Segment → ℝ → ℝ → ℝ → List SimPoint × ℝ
  | [], totalTime, _, _ => ([], totalTime)
  | seg :: rest, totalTime, previousElevation, gain =>
    let speed_ms := calculateSpeed seg.grade mass CdA Pmax Vmax_ms
    let time := seg.distance / speed_ms
    let newTotalTime := totalTime + time
    let elevationChange := seg.elevation - previousElevation
    let newGain := if elevationChange > 0 then gain + elevationChange else gain
    let power :=
      if speed_ms ≥ Vmax_ms - 0.01 then
        max 0 (calculatePowerNeeded speed_ms seg.grade mass CdA)
      else Pmax
    let pt : SimPoint :=
      { distance := seg.cumulativeDistance, elevation := seg.elevation,
        speed := speed_ms * 3.6, power := power, time := newTotalTime,
        grade := seg.grade * 100, elevationGain := newGain,
        lat := some seg.lat, lon := some seg.lon }
    let r := simLoop mass CdA Pmax Vmax_ms rest newTotalTime seg.elevation newGain
    (pt :: r.1, r.2)

/-- The synthetic first simulation point, app.js lines 321-329. -/
noncomputable def startPoint (p0 : TrackPoint) : SimPoint :=
  { distance := 0, elevation := p0.ele, speed := 0, power := 0, time := 0,
    grade := 0, elevationGain := 0 }

/-- The `simulationData` array built by `runSimulation`, app.js lines
315-371: the synthetic start point followed by one point per segment. -/
noncomputable def simulationData (points : List TrackPoint)
    (mass CdA Pmax Vmax_kmh : ℝ) : List SimPoint :=
  match points with
  | [] => []
  | p0 :: rest =>
    startPoint p0 ::
      (simLoop mass CdA Pmax (Vmax_kmh / 3.6) (calculateSegmentData (p0 :: rest))
        0 p0.ele 0).1

/-- `runSimulation`, app.js lines 296-387: abort (`none`) without enough
data, otherwise produce the simulation points and the route totals that are
handed to `displayResults` — total time, total distance (the last segment's
cumulative distance), average speed, and time-weighted average power. -/
noncomputable def runSimulation (points : List TrackPoint)
    (mass CdA Pmax Vmax_kmh : ℝ) : Option (List SimPoint × ℝ × ℝ × ℝ × ℝ) :=
  match points with
  | [] => none
  | p0 :: rest =>
    let segments := calculateSegmentData (p0 :: rest)
    if segments.length = 0 then none
    else
      let r := simLoop mass CdA Pmax (Vmax_kmh / 3.6) segments 0 p0.ele 0
      let data := startPoint p0 :: r.1
      let totalTime := r.2
      let totalDistance := (segments.getD (segments.length - 1) default).cumulativeDistance
      let avgSpeed := totalDistance / totalTime * 3.6
      let totalPower := ∑ i ∈ Finset.Icc 1 (data.length - 1),
        (data.getD i default).power *
          ((data.getD i default).time - (data.getD (i - 1) default).time)
      let avgPower := totalPower / totalTime
      some (data, totalTime, totalDistance, avgSpeed, avgPower)

/-- `updateSummaryCards(data, startIdx, endIdx)`, app.js lines 416-438,
restricted to its computed quantities `(totalTime, totalDistance, avgSpeed,
avgPower)`. The JavaScript guard `if (!endIdx) endIdx = data.length - 1`
treats both a missing `endIdx` and an explicit `endIdx === 0` as "use the
last index", which the `Option ℕ` argument reproduces. -/
noncomputable def updateSummaryCards (data : List SimPoint) (startIdx : ℕ)
    (endIdxOpt : Option ℕ) : ℝ × ℝ × ℝ × ℝ :=
  let endIdx := match endIdxOpt with
    | none => data.length - 1
    | some e => if e = 0 then data.length - 1 else e
  let startTime := (data.getD startIdx default).time
  let endTime := (data.getD endIdx default).time
  let totalTime := endTime - startTime
  let startDist := (data.getD startIdx default).distance
  let endDist := (data.getD endIdx default).distance
  let totalDistance := endDist - startDist
  let avgSpeed := if totalTime > 0 then totalDistance / totalTime * 3.6 else 0
  let totalPower := ∑ i ∈ Finset.Icc (startIdx + 1) endIdx,
    (data.getD i default).power *
      ((data.getD i default).time - (data.getD (i - 1) default).time)
  let avgPower := if totalTime > 0 then totalPower / totalTime else 0
  (totalTime, totalDistance, avgSpeed, avgPower)

/-- The `k`-th point produced by the simulation loop records exactly the
power chosen by the speed-limited / power-limited branch for the `k`-th
segment, independently of the accumulators. -/
theorem simLoop_getD_power (mass CdA Pmax Vmax_ms : ℝ) (segs : List Segment) :
    ∀ (t e gn : ℝ) (k : ℕ), k < segs.length →
      (((simLoop mass CdA Pmax Vmax_ms segs t e gn).1.getD k default).power =
        if calculateSpeed (segs.getD k default).grade mass CdA Pmax Vmax_ms ≥
            Vmax_ms - 0.01 then
          max 0 (calculatePowerNeeded
            (calculateSpeed (segs.getD k default).grade mass CdA Pmax Vmax_ms)
            (segs.getD k default).grade mass CdA)
        else Pmax) := by
  induction segs with
  | nil => intro t e gn k hk; simp at hk
  | cons seg rest ih =>
    intro t e gn k hk
    cases k with
    | zero => simp [simLoop]
    | succ j =>
      have hj : j < rest.length := by simpa using hk
      simpa [simLoop, List.getD_cons_succ] using ih _ _ _ j hj

/-- C4: for every segment of the route, the power recorded in the
corresponding simulation point is `max 0 (powerNeeded speedMs grade mass
CdA)` when the solved speed is within 0.01 m/s of `maxSpeedMs`, and `Pmax`
exactly otherwise. -/
theorem C4_power_branch (points : List TrackPoint) (mass CdA Pmax Vmax_kmh : ℝ)
    (k : ℕ) (hk : k < (calculateSegmentData points).length) :
    ((simulationData points mass CdA Pmax Vmax_kmh).getD (k + 1) default).power =
      if calculateSpeed ((calculateSegmentData points).getD k default).grade
          mass CdA Pmax (Vmax_kmh / 3.6) ≥ Vmax_kmh / 3.6 - 0.01 then
        max 0 (calculatePowerNeeded
          (calculateSpeed ((calculateSegmentData points).getD k default).grade
            mass CdA Pmax (Vmax_kmh / 3.6))
          ((calculateSegmentData points).getD k default).grade mass CdA)
      else Pmax := by
  match points with
  | [] => simp [calculateSegmentData] at hk
  | p0 :: rest =>
    rw [simulationData]
    rw [List.getD_cons_succ]
    exact simLoop_getD_power mass CdA Pmax (Vmax_kmh / 3.6) _ 0 p0.ele 0 k hk

/-- Witness for `C4_power_branch`: a two-point route climbing 10 m between
identical coordinates, with mass 80, dragArea 0.3, maxPower 250,
maxSpeed 40 km/h, segment index 0. -/
theorem C4_power_branch_witness :
    (0 < (calculateSegmentData [⟨0, 0, 0⟩, ⟨0, 0, 10⟩]).length) ∧
      ((simulationData [⟨0, 0, 0⟩, ⟨0, 0, 10⟩] 80 0.3 250 40).getD (0 + 1)
          default).power =
        if calculateSpeed
            ((calculateSegmentData [⟨0, 0, 0⟩, ⟨0, 0, 10⟩]).getD 0 default).grade
            80 0.3 250 (40 / 3.6) ≥ 40 / 3.6 - 0.01 then
          max 0 (calculatePowerNeeded
            (calculateSpeed
              ((calculateSegmentData [⟨0, 0, 0⟩, ⟨0, 0, 10⟩]).getD 0 default).grade
              80 0.3 250 (40 / 3.6))
            ((calculateSegmentData [⟨0, 0, 0⟩, ⟨0, 0, 10⟩]).getD 0 default).grade
            80 0.3)
        else 250 := by
  have hlen : (calculateSegmentData ([⟨0, 0, 0⟩, ⟨0, 0, 10⟩] : List TrackPoint)).length = 1 := by
    simp [calculateSegmentData, segmentsFrom]
  exact ⟨by rw [hlen]; norm_num,
    C4_power_branch [⟨0, 0, 0⟩, ⟨0, 0, 10⟩] 80 0.3 250 40 0 (by rw [hlen]; norm_num)⟩

/-- The comparison carried along the simulation output by C7: the three
cumulative fields are ordered. -/
def simPointLe (a b : SimPoint) : Prop :=
  a.distance ≤ b.distance ∧ a.time ≤ b.time ∧ a.elevationGain ≤ b.elevationGain

instance : IsTrans SimPoint simPointLe :=
  ⟨fun _ _ _ h1 h2 =>
    ⟨h1.1.trans h2.1, h1.2.1.trans h2.2.1, h1.2.2.trans h2.2.2⟩⟩

/-- Every segment distance is a square root, hence non-negative. -/
theorem segmentsFrom_distance_nonneg (rest : List TrackPoint) :
    ∀ (p1 : TrackPoint) (t : ℝ), ∀ s ∈ segmentsFrom t p1 rest, 0 ≤ s.distance := by
  induction rest with
  | nil => intro p1 t s hs; simp [segmentsFrom] at hs
  | cons p2 rest ih =>
    intro p1 t s hs
    rw [segmentsFrom] at hs
    rcases List.mem_cons.1 hs with h | h
    · subst h; exact Real.sqrt_nonneg _
    · exact ih p2 _ s h

/-- Every cumulative distance produced by the segment loop is at least the
incoming accumulator. -/
theorem segmentsFrom_cum_ge (rest : List TrackPoint) :
    ∀ (p1 : TrackPoint) (t : ℝ), ∀ s ∈ segmentsFrom t p1 rest,
      t ≤ s.cumulativeDistance := by
  induction rest with
  | nil => intro p1 t s hs; simp [segmentsFrom] at hs
  | cons p2 rest ih =>
    intro p1 t s hs
    rw [segmentsFrom] at hs
    rcases List.mem_cons.1 hs with h | h
    · subst h
      simp only
      have := Real.sqrt_nonneg
        (calculateDistance p1.lat p1.lon p2.lat p2.lon *
          calculateDistance p1.lat p1.lon p2.lat p2.lon +
          (p2.ele - p1.ele) * (p2.ele - p1.ele))
      linarith
    · have := ih p2 _ s h
      have h0 := Real.sqrt_nonneg
        (calculateDistance p1.lat p1.lon p2.lat p2.lon *
          calculateDistance p1.lat p1.lon p2.lat p2.lon +
          (p2.ele - p1.ele) * (p2.ele - p1.ele))
      simp only at this
      linarith

/-- The cumulative distances of the built segments are non-decreasing. -/
theorem segmentsFrom_cum_chain (rest : List TrackPoint) :
    ∀ (p1 : TrackPoint) (t : ℝ),
      List.Chain' (fun a b : Segment => a.cumulativeDistance ≤ b.cumulativeDistance)
        (segmentsFrom t p1 rest) := by
  induction rest with
  | nil => intro p1 t; rw [segmentsFrom]; exact List.chain'_nil
  | cons p2 rest ih =>
    intro p1 t
    rw [segmentsFrom]
    rw [List.chain'_cons']
    refine ⟨?_, ih p2 _⟩
    intro y hy
    exact segmentsFrom_cum_ge rest p2 _ y (List.mem_of_mem_head? hy)

/-- The simulation loop output, prefixed by any point whose cumulative
fields agree with the accumulators and lie below the first segment's
cumulative distance, is a chain for `simPointLe`: time increments are
non-negative (positive speed, non-negative distance), gain increments are
non-negative by construction, and the recorded distances follow the
segments' non-decreasing cumulative distances. -/
theorem simLoop_chain (mass CdA Pmax Vmax_ms : ℝ) (hV : 0 < Vmax_ms)
    (segs : List Segment) :
    ∀ (t e gn : ℝ) (prev : SimPoint),
      (∀ s ∈ segs, 0 ≤ s.distance) →
      List.Chain' (fun a b : Segment => a.cumulativeDistance ≤ b.cumulativeDistance)
        segs →
      (∀ s0 ∈ segs.head?, prev.distance ≤ s0.cumulativeDistance) →
      prev.time = t → prev.elevationGain = gn →
      List.Chain simPointLe prev (simLoop mass CdA Pmax Vmax_ms segs t e gn).1 := by
  induction segs with
  | nil => intro t e gn prev _ _ _ _ _; rw [simLoop]; exact List.Chain.nil
  | cons seg rest ih =>
    intro t e gn prev hd hchain hhead htime hgain
    rw [simLoop]
    simp only
    have hspeed : 0 < calculateSpeed seg.grade mass CdA Pmax Vmax_ms :=
      calculateSpeed_pos _ _ _ _ _ hV
    have hdist : 0 ≤ seg.distance := hd seg (List.mem_cons_self _ _)
    have hstep : 0 ≤ seg.distance / calculateSpeed seg.grade mass CdA Pmax Vmax_ms :=
      div_nonneg hdist hspeed.le
    refine List.Chain.cons ⟨?_, ?_, ?_⟩ ?_
    · exact hhead seg rfl
    · rw [htime]; simp only; linarith
    · rw [hgain]
      by_cases hpos : seg.elevation - e > 0
      · rw [if_pos hpos]; linarith
      · rw [if_neg hpos]
    · rw [List.chain'_cons'] at hchain
      refine ih _ _ _ _ (fun s hs => hd s (List.mem_cons_of_mem _ hs)) hchain.2
        ?_ rfl ?_
      · intro s0 hs0
        exact hchain.1 s0 hs0
      · simp only

/-- The simulation loop produces one point per segment. -/
theorem simLoop_length (mass CdA Pmax Vmax_ms : ℝ) (segs : List Segment) :
    ∀ (t e gn : ℝ),
      (simLoop mass CdA Pmax Vmax_ms segs t e gn).1.length = segs.length := by
  induction segs with
  | nil => intro t e gn; rw [simLoop]; rfl
  | cons seg rest ih =>
    intro t e gn
    rw [simLoop]
    simp only [List.length_cons]
    rw [ih]

/-- The whole simulation output is a chain for `simPointLe`. -/
theorem simulationData_chain (points : List TrackPoint)
    (mass CdA Pmax Vmax_kmh : ℝ) (hv : 0 < Vmax_kmh) :
    List.Chain' simPointLe (simulationData points mass CdA Pmax Vmax_kmh) := by
  match points with
  | [] => rw [simulationData]; exact List.chain'_nil
  | p0 :: rest =>
    rw [simulationData]
    have hV : 0 < Vmax_kmh / 3.6 := by positivity
    show List.Chain simPointLe _ _
    refine simLoop_chain mass CdA Pmax (Vmax_kmh / 3.6) hV _ 0 p0.ele 0
      (startPoint p0) ?_ ?_ ?_ rfl rfl
    · intro s hs
      rw [calculateSegmentData] at hs
      exact segmentsFrom_distance_nonneg rest p0 0 s hs
    · rw [calculateSegmentData]
      exact segmentsFrom_cum_chain rest p0 0
    · intro s0 hs0
      rw [calculateSegmentData] at hs0
      have hmem := List.mem_of_mem_head? hs0
      have := segmentsFrom_cum_ge rest p0 0 s0 hmem
      rw [startPoint]
      simpa using this

/-- C7: across the simulation output — from the synthetic index-0 entry to
the last entry — the `distance`, `time` and `elevationGain` fields are each
non-decreasing in the index, for every input route and positive rider
parameters. -/
theorem C7_monotone (points : List TrackPoint) (mass CdA Pmax Vmax_kmh : ℝ)
    (hmass : 0 < mass) (hCdA : 0 < CdA) (hPmax : 0 < Pmax) (hv : 0 < Vmax_kmh)
    (i j : ℕ) (hij : i ≤ j)
    (hj : j < (simulationData points mass CdA Pmax Vmax_kmh).length) :
    ((simulationData points mass CdA Pmax Vmax_kmh).getD i default).distance ≤
        ((simulationData points mass CdA Pmax Vmax_kmh).getD j default).distance ∧
      ((simulationData points mass CdA Pmax Vmax_kmh).getD i default).time ≤
        ((simulationData points mass CdA Pmax Vmax_kmh).getD j default).time ∧
      ((simulationData points mass CdA Pmax Vmax_kmh).getD i default).elevationGain ≤
        ((simulationData points mass CdA Pmax Vmax_kmh).getD j default).elevationGain := by
  rcases eq_or_lt_of_le hij with heq | hlt
  · subst heq; exact ⟨le_rfl, le_rfl, le_rfl⟩
  · have hchain := simulationData_chain points mass CdA Pmax Vmax_kmh hv
    rw [List.chain'_iff_pairwise] at hchain
    have hi : i < (simulationData points mass CdA Pmax Vmax_kmh).length :=
      lt_trans hlt hj
    have hrel := List.pairwise_iff_get.1 hchain ⟨i, hi⟩ ⟨j, hj⟩ hlt
    rw [List.getD_eq_getElem _ _ hi, List.getD_eq_getElem _ _ hj]
    exact hrel

/-- Witness for `C7_monotone`: a two-point route, indices 0 ≤ 1 < 2. -/
theorem C7_monotone_witness :
    ((0:ℝ) < 80 ∧ (0:ℝ) < 0.3 ∧ (0:ℝ) < 250 ∧ (0:ℝ) < 40 ∧ (0 ≤ 1) ∧
        1 < (simulationData [⟨0, 0, 0⟩, ⟨0, 0, 10⟩] 80 0.3 250 40).length) ∧
      (((simulationData [⟨0, 0, 0⟩, ⟨0, 0, 10⟩] 80 0.3 250 40).getD 0
            default).distance ≤
          ((simulationData [⟨0, 0, 0⟩, ⟨0, 0, 10⟩] 80 0.3 250 40).getD 1
            default).distance ∧
        ((simulationData [⟨0, 0, 0⟩, ⟨0, 0, 10⟩] 80 0.3 250 40).getD 0
            default).time ≤
          ((simulationData [⟨0, 0, 0⟩, ⟨0, 0, 10⟩] 80 0.3 250 40).getD 1
            default).time ∧
        ((simulationData [⟨0, 0, 0⟩, ⟨0, 0, 10⟩] 80 0.3 250 40).getD 0
            default).elevationGain ≤
          ((simulationData [⟨0, 0, 0⟩, ⟨0, 0, 10⟩] 80 0.3 250 40).getD 1
            default).elevationGain) := by
  have hlen : (simulationData ([⟨0, 0, 0⟩, ⟨0, 0, 10⟩] : List TrackPoint)
      80 0.3 250 40).length = 2 := by
    rw [simulationData]
    simp [simLoop_length, calculateSegmentData, segmentsFrom]
  refine ⟨⟨by norm_num, by norm_num, by norm_num, by norm_num, by norm_num,
    by rw [hlen]; norm_num⟩, ?_⟩
  exact C7_monotone [⟨0, 0, 0⟩, ⟨0, 0, 10⟩] 80 0.3 250 40 (by norm_num)
    (by norm_num) (by norm_num) (by norm_num) 0 1 (by norm_num)
    (by rw [hlen]; norm_num)

/-- The segment loop produces one segment per remaining point. -/
theorem segmentsFrom_length (rest : List TrackPoint) :
    ∀ (p1 : TrackPoint) (t : ℝ), (segmentsFrom t p1 rest).length = rest.length := by
  induction rest with
  | nil => intro p1 t; rw [segmentsFrom]; rfl
  | cons p2 rest ih =>
    intro p1 t
    rw [segmentsFrom]
    simp only [List.length_cons]
    rw [ih]

/-- The time recorded on the last simulation point is the final accumulated
total time. -/
theorem simLoop_last_time (mass CdA Pmax Vmax_ms : ℝ) (segs : List Segment) :
    ∀ (t e gn : ℝ), segs ≠ [] →
      ((simLoop mass CdA Pmax Vmax_ms segs t e gn).1.getD (segs.length - 1)
          default).time =
        (simLoop mass CdA Pmax Vmax_ms segs t e gn).2 := by
  induction segs with
  | nil => intro t e gn h; exact absurd rfl h
  | cons seg rest ih =>
    intro t e gn _
    by_cases hr : rest = []
    · subst hr; simp [simLoop]
    · have hlen : rest.length - 1 + 1 = rest.length :=
        Nat.succ_pred_eq_of_pos (List.length_pos.2 hr)
      rw [simLoop]
      simp only [List.length_cons, Nat.add_sub_cancel]
      rw [← hlen, List.getD_cons_succ]
      exact ih _ _ _ hr

/-- The distance recorded on the last simulation point is the last segment's
cumulative distance. -/
theorem simLoop_last_distance (mass CdA Pmax Vmax_ms : ℝ) (segs : List Segment) :
    ∀ (t e gn : ℝ), segs ≠ [] →
      ((simLoop mass CdA Pmax Vmax_ms segs t e gn).1.getD (segs.length - 1)
          default).distance =
        (segs.getD (segs.length - 1) default).cumulativeDistance := by
  induction segs with
  | nil => intro t e gn h; exact absurd rfl h
  | cons seg rest ih =>
    intro t e gn _
    by_cases hr : rest = []
    · subst hr; simp [simLoop]
    · have hlen : rest.length - 1 + 1 = rest.length :=
        Nat.succ_pred_eq_of_pos (List.length_pos.2 hr)
      rw [simLoop]
      simp only [List.length_cons, Nat.add_sub_cancel]
      rw [← hlen, List.getD_cons_succ, List.getD_cons_succ]
      exact ih _ _ _ hr

/-- The accumulated total time never decreases below its starting value. -/
theorem simLoop_time_ge (mass CdA Pmax Vmax_ms : ℝ) (hV : 0 < Vmax_ms)
    (segs : List Segment) :
    ∀ (t e gn : ℝ), (∀ s ∈ segs, 0 ≤ s.distance) →
      t ≤ (simLoop mass CdA Pmax Vmax_ms segs t e gn).2 := by
  induction segs with
  | nil => intro t e gn _; rw [simLoop]
  | cons seg rest ih =>
    intro t e gn hd
    rw [simLoop]
    simp only
    have hspeed : 0 < calculateSpeed seg.grade mass CdA Pmax Vmax_ms :=
      calculateSpeed_pos _ _ _ _ _ hV
    have hstep : 0 ≤ seg.distance / calculateSpeed seg.grade mass CdA Pmax Vmax_ms :=
      div_nonneg (hd seg (List.mem_cons_self _ _)) hspeed.le
    have := ih (t + seg.distance / calculateSpeed seg.grade mass CdA Pmax Vmax_ms)
      seg.elevation
      (if seg.elevation - e > 0 then gn + (seg.elevation - e) else gn)
      (fun s hs => hd s (List.mem_cons_of_mem _ hs))
    linarith

/-- C5: for every route of at least two points and positive rider
parameters, `runSimulation` succeeds, and `updateSummaryCards` over the full
index range `[0, data.length − 1]` returns exactly the route-level totals
`(totalTime, totalDistance, avgSpeed, avgPower)` computed by the simulation
in its single pass. -/
theorem C5_aggregate_full (points : List TrackPoint)
    (mass CdA Pmax Vmax_kmh : ℝ) (hmass : 0 < mass) (hCdA : 0 < CdA)
    (hPmax : 0 < Pmax) (hv : 0 < Vmax_kmh) (h2 : 2 ≤ points.length) :
    ∃ data T D S W,
      runSimulation points mass CdA Pmax Vmax_kmh = some (data, T, D, S, W) ∧
        updateSummaryCards data 0 (some (data.length - 1)) = (T, D, S, W) := by
  match points, h2 with
  | p0 :: rest, h2 =>
    have hrest : rest.length ≠ 0 := by
      simp only [List.length_cons] at h2; omega
    have hseglen : (calculateSegmentData (p0 :: rest)).length = rest.length := by
      rw [calculateSegmentData]; exact segmentsFrom_length rest p0 0
    have hsegne : calculateSegmentData (p0 :: rest) ≠ [] := by
      intro h; rw [h] at hseglen; exact hrest hseglen.symm
    have hV : 0 < Vmax_kmh / 3.6 := by positivity
    set segs := calculateSegmentData (p0 :: rest) with hsegs
    set out := (simLoop mass CdA Pmax (Vmax_kmh / 3.6) segs 0 p0.ele 0).1 with hout
    set T := (simLoop mass CdA Pmax (Vmax_kmh / 3.6) segs 0 p0.ele 0).2 with hT
    set data := startPoint p0 :: out with hdata
    set D := (segs.getD (segs.length - 1) default).cumulativeDistance with hD
    set W := ∑ i ∈ Finset.Icc 1 (data.length - 1),
      (data.getD i default).power *
        ((data.getD i default).time - (data.getD (i - 1) default).time) with hW
    have houtlen : out.length = segs.length := by
      rw [hout]; exact simLoop_length mass CdA Pmax (Vmax_kmh / 3.6) segs 0 p0.ele 0
    have hdatalen : data.length - 1 = out.length := by
      rw [hdata, List.length_cons, Nat.add_sub_cancel]
    have houtpos : out.length - 1 + 1 = out.length := by
      rw [houtlen, hseglen]; omega
    have hTnonneg : 0 ≤ T := by
      rw [hT]
      refine simLoop_time_ge mass CdA Pmax (Vmax_kmh / 3.6) hV segs 0 p0.ele 0 ?_
      intro s hs
      rw [hsegs, calculateSegmentData] at hs
      exact segmentsFrom_distance_nonneg rest p0 0 s hs
    have hend_time : (data.getD (data.length - 1) default).time = T := by
      rw [hdatalen, hdata, ← houtpos, List.getD_cons_succ, hout, hT]
      rw [simLoop_length mass CdA Pmax (Vmax_kmh / 3.6) segs 0 p0.ele 0]
      exact simLoop_last_time mass CdA Pmax (Vmax_kmh / 3.6) segs 0 p0.ele 0 hsegne
    have hend_dist : (data.getD (data.length - 1) default).distance = D := by
      rw [hdatalen, hdata, ← houtpos, List.getD_cons_succ, hout, hD]
      rw [simLoop_length mass CdA Pmax (Vmax_kmh / 3.6) segs 0 p0.ele 0]
      exact simLoop_last_distance mass CdA Pmax (Vmax_kmh / 3.6) segs 0 p0.ele 0 hsegne
    have hstart_time : (data.getD 0 default).time = 0 := by
      rw [hdata, List.getD_cons_zero, startPoint]
    have hstart_dist : (data.getD 0 default).distance = 0 := by
      rw [hdata, List.getD_cons_zero, startPoint]
    refine ⟨data, T, D, D / T * 3.6, W / T, ?_, ?_⟩
    · rw [runSimulation]
      simp only [← hsegs]
      rw [if_neg (by rw [hseglen]; exact hrest)]
    · simp only [updateSummaryCards, ite_self, Nat.zero_add]
      rw [hstart_time, hstart_dist, hend_time, hend_dist]
      rw [sub_zero, sub_zero]
      rcases eq_or_lt_of_le hTnonneg with hT0 | hTpos
      · rw [if_neg (by rw [← hT0]; exact lt_irrefl 0),
          if_neg (by rw [← hT0]; exact lt_irrefl 0)]
        rw [← hT0, div_zero, zero_mul, div_zero]
      · rw [if_pos hTpos, if_pos hTpos]

/-- Witness for `C5_aggregate_full`: a two-point route with positive rider
parameters. -/
theorem C5_aggregate_full_witness :
    ((0:ℝ) < 80 ∧ (0:ℝ) < 0.3 ∧ (0:ℝ) < 250 ∧ (0:ℝ) < 40 ∧
        2 ≤ ([⟨0, 0, 0⟩, ⟨0, 0, 10⟩] : List TrackPoint).length) ∧
      (∃ data T D S W,
        runSimulation [⟨0, 0, 0⟩, ⟨0, 0, 10⟩] 80 0.3 250 40 =
            some (data, T, D, S, W) ∧
          updateSummaryCards data 0 (some (data.length - 1)) = (T, D, S, W)) :=
  ⟨⟨by norm_num, by norm_num, by norm_num, by norm_num, by norm_num⟩,
    C5_aggregate_full [⟨0, 0, 0⟩, ⟨0, 0, 10⟩] 80 0.3 250 40 (by norm_num)
      (by norm_num) (by norm_num) (by norm_num) (by norm_num)⟩

/-- C6: evaluating `updateSummaryCards` at an explicit `endIdx = 0` on a
two-point result sequence: the JavaScript guard `if (!endIdx)` treats the
explicit index 0 as absent and aggregates the full range, returning
`(10, 100, 36, 100)` instead of the `(0, 0, 0, 0)` that the
`start = end = 0` sub-range requires. -/
theorem C6_endIdx_zero_bug :
    updateSummaryCards
      [{ distance := 0, elevation := 0, speed := 0, power := 0, time := 0,
          grade := 0, elevationGain := 0 },
        { distance := 100, elevation := 0, speed := 36, power := 100, time := 10,
          grade := 0, elevationGain := 0 }] 0 (some 0) = (10, 100, 36, 100) := by
  unfold updateSummaryCards
  norm_num [Finset.Icc_self, Finset.sum_singleton]

end BikeSim
